import Mathlib

/-!
Verification of the Nevis proxy-server gateway (`proxy-server/main.py`).

This file embeds, shallowly, the parts of the gateway that the specification
talks about: the in-memory credit ledger, the model allow-list and the
tier-access table, credential (API-key) resolution from the environment, the
multi-credential / multi-provider fallback orchestrator, the request/response
format translation between the Google-style and OpenAI-style schemas, and the
`/generate-text`, `/generate-image` and `/analyze-website` endpoint pipelines.

Conventions of the embedding:
* Python dicts with a fixed key set become association lists (`List (α × β)`)
  queried with `List.lookup`, or explicit `if`-chains.
* The process environment becomes a function `String → Option String`.
* Network calls become oracle functions supplied as parameters: the embedding
  of an endpoint receives, for each upstream provider, the outcome the
  provider would return (`Except String String`: error message or payload).
* `raise HTTPException(status, detail)` becomes `Except.error ⟨status, detail⟩`.
* Monetary costs (Python floats `0.00065`, `0.03903`, `0.03968`) are modelled
  exactly, as integer multiples of 10^-5 dollars (65, 3903, 3968); the claims
  under check concern how costs accumulate, not float rounding.
* Timestamps (`last_updated`) and the prompt/temperature/max-token payload
  fields are elided: no claim mentions them and they do not influence
  control flow.
-/

/-- Python `s.startswith(p)`, as a kernel-reducible check over character
lists. -/
def strStartsWith (s p : String) : Bool := p.toList.isPrefixOf s.toList

/-- An HTTP error as raised by `HTTPException(status_code, detail)`. -/
structure HttpError where
  status : Nat
  detail : String
deriving DecidableEq, Repr

/-- Per-account ledger entry: the value stored in the `user_credits`
defaultdict for one user.  `credits` is an integer (it can in principle go
negative, which is exactly what claim C3 is about); `totalCost` is the
`total_cost` accumulator in units of 10^-5 dollars. -/
structure UserData where
  credits : Int
  tier : String
  totalCost : Nat
deriving DecidableEq, Repr

/-- The defaultdict default: `{"credits": 100, "tier": "free", ...}`. -/
def defaultUserData : UserData := ⟨100, "free", 0⟩

/-- `TIER_CREDITS` dict. -/
def TIER_CREDITS : List (String × Int) :=
  [("free", 100), ("basic", 40), ("premium", 100), ("pro", 250), ("enterprise", 1000)]

/-- `GENERATION_COSTS` dict, in units of 10^-5 dollars. -/
def GENERATION_COSTS : List (String × Nat) :=
  [("text", 65), ("image", 3903), ("complete", 3968)]

/-- `GENERATION_COSTS.get(generation_type, GENERATION_COSTS["complete"])`. -/
def generationCost (generationType : String) : Nat :=
  (GENERATION_COSTS.lookup generationType).getD
    ((GENERATION_COSTS.lookup "complete").getD 0)

/-- `get_tier_credits`: `TIER_CREDITS.get(tier, TIER_CREDITS["free"])`. -/
def get_tier_credits (tier : String) : Int :=
  (TIER_CREDITS.lookup tier).getD ((TIER_CREDITS.lookup "free").getD 0)

/-- `check_user_credits(user_id, tier)`: updates the stored tier, then raises
HTTP 429 when `credits <= 0`.  Returns the (possibly tier-updated) ledger
entry together with the error, when one is raised. -/
def check_user_credits (tier : String) (u : UserData) : UserData × Option HttpError :=
  let u' := { u with tier := tier }
  if u'.credits ≤ 0 then
    (u', some ⟨429, "No credits remaining. You have " ++ toString u'.credits ++
      " credits left. Purchase more credits to continue."⟩)
  else
    (u', none)

/-- `deduct_user_credit(user_id, tier, generation_type)`: subtract one credit,
update the tier, and add the per-kind cost to the `total_cost` accumulator. -/
def deduct_user_credit (tier generationType : String) (u : UserData) : UserData :=
  { credits := u.credits - 1
    tier := tier
    totalCost := u.totalCost + generationCost generationType }

/-- `add_credits_to_user(user_id, tier)`: credit the tier's package size. -/
def add_credits_to_user (tier : String) (u : UserData) : UserData :=
  { credits := u.credits + get_tier_credits tier
    tier := tier
    totalCost := u.totalCost }

/-- `POST /purchase-credits/{user_id}`: reject unknown tier packages with
HTTP 400, otherwise add the package. -/
def purchase_credits (tier : String) (u : UserData) : Except HttpError UserData :=
  if (TIER_CREDITS.lookup tier).isSome then
    .ok (add_credits_to_user tier u)
  else
    .error ⟨400, "Invalid tier package: " ++ tier⟩

/-- `POST /add-credits/{user_id}`: reject non-positive amounts with HTTP 400,
otherwise add the amount. -/
def add_credits_manual (credits : Int) (tier : String) (u : UserData) : Except HttpError UserData :=
  if credits ≤ 0 then
    .error ⟨400, "Credits must be positive"⟩
  else
    .ok { credits := u.credits + credits, tier := tier, totalCost := u.totalCost }

/-! ## Model registry -/

/-- `ALLOWED_MODELS` dict: logical model name ↦ endpoint (or `"anthropic"`). -/
def ALLOWED_MODELS : List (String × String) :=
  [("gemini-2.5-flash-image-preview",
    "https://generativelanguage.googleapis.com/v1beta/models/gemini-2.5-flash-image-preview:generateContent"),
   ("gemini-2.5-flash",
    "https://generativelanguage.googleapis.com/v1beta/models/gemini-2.5-flash:generateContent"),
   ("gemini-2.5-flash-lite",
    "https://generativelanguage.googleapis.com/v1beta/models/gemini-2.5-flash-lite:generateContent"),
   ("claude-sonnet-4.5", "anthropic"),
   ("claude-3.5-sonnet", "anthropic"),
   ("gemini-1.5-flash",
    "https://generativelanguage.googleapis.com/v1beta/models/gemini-1.5-flash:generateContent")]

/-- `list(ALLOWED_MODELS.keys())`. -/
def allowedModelNames : List String := ALLOWED_MODELS.map Prod.fst

/-- `TIER_MODELS`: every tier maps to the full allowed-model list. -/
def TIER_MODELS : List (String × List String) :=
  [("free", allowedModelNames), ("basic", allowedModelNames),
   ("premium", allowedModelNames), ("pro", allowedModelNames),
   ("enterprise", allowedModelNames)]

/-- `OPENROUTER_MODEL_MAPPING` dict. -/
def OPENROUTER_MODEL_MAPPING : List (String × String) :=
  [("gemini-2.5-flash-image-preview", "google/gemini-2.5-flash-image-preview"),
   ("gemini-2.5-flash", "google/gemini-2.5-flash"),
   ("gemini-2.5-flash-lite", "google/gemini-2.5-flash-lite"),
   ("gemini-1.5-flash", "google/gemini-1.5-flash"),
   ("claude-sonnet-4.5", "anthropic/claude-3.5-sonnet"),
   ("claude-3.5-sonnet", "anthropic/claude-3.5-sonnet")]

/-- `validate_model`: HTTP 400 for a model not in `ALLOWED_MODELS`; for
claude-prefixed models return the placeholder `"anthropic"`, otherwise the
endpoint from the dict. -/
def validate_model (model : String) : Except HttpError String :=
  match ALLOWED_MODELS.lookup model with
  | none => .error ⟨400, "Model '" ++ model ++ "' not allowed."⟩
  | some endpoint =>
    if strStartsWith model "claude" then .ok "anthropic" else .ok endpoint

/-- `validate_tier_model_access`: unknown tiers degrade to `"free"`; a model
outside the tier's list is rejected with HTTP 403. -/
def validate_tier_model_access (tier model : String) : Except HttpError Unit :=
  let t := if (TIER_MODELS.lookup tier).isSome then tier else "free"
  let allowed := (TIER_MODELS.lookup t).getD []
  if allowed.contains model then .ok () else
    .error ⟨403, "Your " ++ t ++ " tier does not have access to " ++ model⟩

/-! ## Credential resolution -/

/-- The version-specific key-name triples and the
`get_default_keys_for_model` dict (`model_to_key_mapping`), as an if-chain
over the dict's (distinct) keys, with the dict's `.get` default. -/
def get_default_keys_for_model (model : String) : List String :=
  if model = "gemini-2.5-flash-image-preview" then
    ["GEMINI_API_KEY_REVO_1_0_PRIMARY", "GEMINI_API_KEY_REVO_1_0_SECONDARY",
     "GEMINI_API_KEY_REVO_1_0_TERTIARY"]
  else if model = "gemini-2.5-flash" then
    ["GEMINI_API_KEY_REVO_1_5_PRIMARY", "GEMINI_API_KEY_REVO_1_5_SECONDARY",
     "GEMINI_API_KEY_REVO_1_5_TERTIARY"]
  else if model = "gemini-2.5-flash-lite" then
    ["GEMINI_API_KEY_REVO_1_5_PRIMARY", "GEMINI_API_KEY_REVO_1_5_SECONDARY",
     "GEMINI_API_KEY_REVO_1_5_TERTIARY"]
  else if model = "claude-sonnet-4.5" then ["ANTHROPIC_API_KEY"]
  else if model = "claude-3.5-sonnet" then ["ANTHROPIC_API_KEY"]
  else if model = "gemini-1.5-flash" then ["GEMINI_API_KEY", "GOOGLE_API_KEY"]
  else ["GEMINI_API_KEY", "GOOGLE_API_KEY"]

/-- The `key_env_names` selection at the top of `get_api_keys_for_model`:
version-specific triples for Revo 2.0 / 1.5 / 1.0, otherwise the default
mapping.  (`revo_version` is `Option String`; Python's falsy empty string is
not distinguished from `None` by any caller.) -/
def revo_key_env_names (model : String) (revoVersion : Option String) : List String :=
  match revoVersion with
  | some v =>
    if v = "2.0" then
      ["GEMINI_API_KEY_REVO_2_0_PRIMARY", "GEMINI_API_KEY_REVO_2_0_SECONDARY",
       "GEMINI_API_KEY_REVO_2_0_TERTIARY"]
    else if v = "1.5" then
      ["GEMINI_API_KEY_REVO_1_5_PRIMARY", "GEMINI_API_KEY_REVO_1_5_SECONDARY",
       "GEMINI_API_KEY_REVO_1_5_TERTIARY"]
    else if v = "1.0" then
      ["GEMINI_API_KEY_REVO_1_0_PRIMARY", "GEMINI_API_KEY_REVO_1_0_SECONDARY",
       "GEMINI_API_KEY_REVO_1_0_TERTIARY"]
    else get_default_keys_for_model model
  | none => get_default_keys_for_model model

/-- `f"GEMINI_API_KEY_REVO_{revo_version.replace('.', '_')}"`. -/
def legacy_key_name (v : String) : String :=
  "GEMINI_API_KEY_REVO_" ++ String.mk (v.toList.map fun c => if c = '.' then '_' else c)

/-- `get_api_keys_for_model(model, revo_version)` over an abstract
environment: collect the configured version/default slots in order (missing
slots skipped), fall back to the legacy single slot (only when a Revo version
was given), then to the general `GEMINI_API_KEY` / `GOOGLE_API_KEY` slot, and
raise HTTP 500 when the whole chain is empty. -/
def get_api_keys_for_model (env : String → Option String) (model : String)
    (revoVersion : Option String) : Except HttpError (List String) :=
  let keyEnvNames := revo_key_env_names model revoVersion
  let apiKeys := keyEnvNames.filterMap env
  let apiKeys :=
    if apiKeys.isEmpty then
      match revoVersion with
      | some v =>
        match env (legacy_key_name v) with
        | some k => [k]
        | none => []
      | none => []
    else apiKeys
  let apiKeys :=
    if apiKeys.isEmpty then
      match env "GEMINI_API_KEY" with
      | some k => [k]
      | none =>
        match env "GOOGLE_API_KEY" with
        | some k => [k]
        | none => []
    else apiKeys
  if apiKeys.isEmpty then
    .error ⟨500, "No API keys configured for model " ++ model⟩
  else
    .ok apiKeys

/-- `get_api_key_for_model`: the first resolved key. -/
def get_api_key_for_model (env : String → Option String) (model : String)
    (revoVersion : Option String) : Except HttpError String :=
  match get_api_keys_for_model env model revoVersion with
  | .error e => .error e
  | .ok ks => .ok (ks.headD "")

/-! ## Fallback orchestrator (`call_enhanced_api_with_fallback`) -/

/-- Does `needle` occur as a contiguous substring of the haystack?
(Embedding of Python's `x in s` on strings, over character lists.) -/
def containsSub (needle : List Char) : List Char → Bool
  | [] => needle.isEmpty
  | c :: rest => needle.isPrefixOf (c :: rest) || containsSub needle rest

/-- The `should_try_next_key` computation in the credential loop of
`call_enhanced_api_with_fallback`: initialised to `True`, then each branch
(status-code markers checked on the raw message, the other markers on the
lowercased message) re-assigns `True`; no branch ever assigns `False`. -/
def shouldTryNextKey (errorMessage : String) : Bool :=
  let raw := errorMessage.toList
  let low := errorMessage.toList.map Char.toLower
  let b := true
  let b := if containsSub "429".toList raw || containsSub "503".toList raw ||
              containsSub "500".toList raw then true else b
  let b := if containsSub "timeout".toList low || containsSub "connection".toList low
           then true else b
  let b := if containsSub "quota".toList low || containsSub "limit".toList low
           then true else b
  let b := if containsSub "rate".toList low then true else b
  b

/-- The `for i, api_key in enumerate(api_keys)` loop.  The input is the list
of outcomes `call_google_api` would produce, one per resolved key, in order.
`Except.ok (r, n)` means the `n`-th attempt (1-based) returned `r` (HTTP 2xx);
`Except.error (last, n)` means the loop exited after `n` calls with
`last_google_error = last`.  A failing attempt continues to the next key when
`should_try_next_key` holds and keys remain, and otherwise breaks — mirroring
`if should_try_next_key and i < len(api_keys) - 1: continue / else: break`. -/
def tryGoogleKeys : List (Except String String) → Option String →
    Except (Option String × Nat) (String × Nat)
  | [], last => .error (last, 0)
  | outcome :: rest, _ =>
    match outcome with
    | .ok r => .ok (r, 1)
    | .error e =>
      if shouldTryNextKey e && !rest.isEmpty then
        match tryGoogleKeys rest (some e) with
        | .ok (r, n) => .ok (r, n + 1)
        | .error (last, n) => .error (last, n + 1)
      else
        .error (some e, 1)

deriving instance DecidableEq for Except

/-- Result of the orchestrator: the response with its `provider_used`
provenance tag (or the raised error), plus the number of outbound provider
calls made. -/
structure FallbackResult where
  out : Except String (String × String)
  attempts : Nat
deriving DecidableEq, Repr

/-- `call_enhanced_api_with_fallback`, given the per-key Google outcomes,
whether the model has an OpenRouter mapping (`model in
OPENROUTER_MODEL_MAPPING`), and the outcome OpenRouter would return.  On a
key success the provenance is `f"google-key-{i+1}"`; after key exhaustion
OpenRouter is called once iff the mapping exists; the terminal error is
`last_google_error or openrouter_error` (resp. `last_google_error or
Exception("All API keys failed ...")` without a mapping). -/
def call_enhanced_api_with_fallback (keyOutcomes : List (Except String String))
    (hasMapping : Bool) (openrouterOutcome : Except String String) : FallbackResult :=
  match tryGoogleKeys keyOutcomes none with
  | .ok (r, n) => ⟨.ok (r, "google-key-" ++ toString n), n⟩
  | .error (last, n) =>
    if hasMapping then
      match openrouterOutcome with
      | .ok r => ⟨.ok (r, "openrouter"), n + 1⟩
      | .error oe => ⟨.error (last.getD oe), n + 1⟩
    else
      ⟨.error (last.getD "All API keys failed"), n⟩

/-! ## Endpoint pipelines -/

/-- The outcomes the upstream providers would return for this request:
`googleCall` maps an API key to the outcome of `call_google_api` with that
key, `claudeCall` maps an API key to the outcome of `call_claude_api`, and
`openrouterCall` is the outcome of `call_openrouter_api`. -/
structure Upstream where
  googleCall : String → Except String String
  claudeCall : String → Except String String
  openrouterCall : Except String String

/-- `TextRequest` pydantic model (payload-only fields elided). -/
structure TextRequest where
  user_id : String
  user_tier : String
  model : String
  revo_version : Option String
deriving Repr

/-- The JSON body of a successful generation response (fields the claims
mention). -/
structure ProxyResponse where
  data : String
  model_used : String
  provider_used : String
  user_credits : Int
deriving DecidableEq, Repr

/-- The observable outcome of one endpoint invocation: the HTTP response,
the account's ledger entry afterwards, how many credential resolutions were
performed, and how many outbound provider calls were made. -/
structure GenOutcome where
  response : Except HttpError ProxyResponse
  ledger : UserData
  lookups : Nat
  upstream : Nat
deriving Repr

/-- `POST /generate-text`: validate the model (400), the tier access (403),
the credits (429), resolve the API keys (500); then claude-prefixed models
make exactly one Anthropic call with the first key, other models run the
enhanced Google+OpenRouter fallback; on success debit one `"text"` credit,
on upstream failure raise 503. -/
def generate_text (env : String → Option String) (up : Upstream)
    (req : TextRequest) (u : UserData) : GenOutcome :=
  match validate_model req.model with
  | .error e => ⟨.error e, u, 0, 0⟩
  | .ok _ =>
  match validate_tier_model_access req.user_tier req.model with
  | .error e => ⟨.error e, u, 0, 0⟩
  | .ok _ =>
  let checked := check_user_credits req.user_tier u
  match checked.2 with
  | some e => ⟨.error e, checked.1, 0, 0⟩
  | none =>
  match get_api_keys_for_model env req.model req.revo_version with
  | .error e => ⟨.error e, checked.1, 1, 0⟩
  | .ok keys =>
    if strStartsWith req.model "claude" then
      match up.claudeCall (keys.headD "") with
      | .ok d =>
        let u2 := deduct_user_credit req.user_tier "text" checked.1
        ⟨.ok ⟨d, req.model, "claude", u2.credits⟩, u2, 1, 1⟩
      | .error e =>
        ⟨.error ⟨503, "Text generation failed: " ++ e⟩, checked.1, 1, 1⟩
    else
      -- `call_enhanced_api_with_fallback` re-resolves the same key list
      -- (second lookup); with a fixed environment the result is identical.
      let fb := call_enhanced_api_with_fallback (keys.map up.googleCall)
        (OPENROUTER_MODEL_MAPPING.lookup req.model).isSome up.openrouterCall
      match fb.out with
      | .ok (d, prov) =>
        let u2 := deduct_user_credit req.user_tier "text" checked.1
        ⟨.ok ⟨d, req.model, prov, u2.credits⟩, u2, 2, fb.attempts⟩
      | .error e =>
        ⟨.error ⟨503, "Text generation failed: " ++ e⟩, checked.1, 2, fb.attempts⟩

/-- `ImageRequest` pydantic model (payload-only fields elided). -/
structure ImageRequest where
  user_id : String
  user_tier : String
  model : String
  revo_version : Option String
deriving Repr

/-- `POST /generate-image`: same gating as `/generate-text` but always via
the enhanced fallback, debiting one `"image"` credit on success and raising
503 on total failure. -/
def generate_image (env : String → Option String) (up : Upstream)
    (req : ImageRequest) (u : UserData) : GenOutcome :=
  match validate_model req.model with
  | .error e => ⟨.error e, u, 0, 0⟩
  | .ok _ =>
  match validate_tier_model_access req.user_tier req.model with
  | .error e => ⟨.error e, u, 0, 0⟩
  | .ok _ =>
  let checked := check_user_credits req.user_tier u
  match checked.2 with
  | some e => ⟨.error e, checked.1, 0, 0⟩
  | none =>
  match get_api_keys_for_model env req.model req.revo_version with
  | .error e => ⟨.error e, checked.1, 1, 0⟩
  | .ok keys =>
    let fb := call_enhanced_api_with_fallback (keys.map up.googleCall)
      (OPENROUTER_MODEL_MAPPING.lookup req.model).isSome up.openrouterCall
    match fb.out with
    | .ok (d, prov) =>
      let u2 := deduct_user_credit req.user_tier "image" checked.1
      ⟨.ok ⟨d, req.model, prov, u2.credits⟩, u2, 2, fb.attempts⟩
    | .error e =>
      ⟨.error ⟨503, "Image generation failed: " ++ e⟩, checked.1, 2, fb.attempts⟩

/-- `POST /analyze-website`: check credits first (429), then reject content
shorter than 100 characters (400), then run the multi-model analysis chain
(its outcome abstracted as `analysisOutcome`); on success debit two
`"website_analysis"` credits (the double `deduct_user_credit` call), on
chain failure the generic handler raises 500. -/
def analyze_website_endpoint (contentLen : Nat)
    (analysisOutcome : Except String String) (tier : String) (u : UserData) : GenOutcome :=
  let checked := check_user_credits tier u
  match checked.2 with
  | some e => ⟨.error e, checked.1, 0, 0⟩
  | none =>
  if contentLen < 100 then
    ⟨.error ⟨400, "Website content too short. Minimum 100 characters required."⟩,
      checked.1, 0, 0⟩
  else
    match analysisOutcome with
    | .ok d =>
      let u2 := deduct_user_credit tier "website_analysis"
        (deduct_user_credit tier "website_analysis" checked.1)
      ⟨.ok ⟨d, "", "openrouter", u2.credits⟩, u2, 0, 1⟩
    | .error e =>
      ⟨.error ⟨500, "Website analysis failed: " ++ e⟩, checked.1, 0, 1⟩

/-! ## Gateway operations (for the ledger invariant) -/

/-- One ledger-touching gateway operation, with the request data and the
upstream outcomes it would observe. -/
inductive GatewayOp where
  | genText (env : String → Option String) (up : Upstream) (req : TextRequest)
  | genImage (env : String → Option String) (up : Upstream) (req : ImageRequest)
  | analyzeWebsite (contentLen : Nat) (outcome : Except String String) (tier : String)
  | purchase (tier : String)
  | grant (credits : Int) (tier : String)

/-- The effect of one gateway operation on one account's ledger entry
(purchase/grant leave the ledger unchanged when they reject the request). -/
def runOp (u : UserData) : GatewayOp → UserData
  | .genText env up req => (generate_text env up req u).ledger
  | .genImage env up req => (generate_image env up req u).ledger
  | .analyzeWebsite n outcome tier => (analyze_website_endpoint n outcome tier u).ledger
  | .purchase tier =>
    match purchase_credits tier u with
    | .ok u' => u'
    | .error _ => u
  | .grant c tier =>
    match add_credits_manual c tier u with
    | .ok u' => u'
    | .error _ => u

/-- Run a sequence of gateway operations on one account. -/
def runOps (u : UserData) (ops : List GatewayOp) : UserData := ops.foldl runOp u

/-! ## Request/response translation (`convert_google_to_openai_format`,
`convert_openai_to_google_format`)

The translator is embedded at the level of content segments, over character
lists (Python strings).  The request side works on the `parts` list of the
Google payload; the response side works on the `choices[0].message.content`
value of the OpenAI-style response (the surrounding `choices`/`message`
envelope, `finishReason` and usage fields carry no segment data and are
elided). -/

/-- A Google-format content part: `{"text": ...}` or
`{"inlineData": {"mimeType": ..., "data": ...}}`. -/
inductive GPart where
  | text (s : List Char)
  | inlineData (mimeType : List Char) (data : List Char)
deriving DecidableEq, Repr

/-- An element of an OpenAI-style content list: `{"type": "text", ...}` or
`{"type": "image_url", "image_url": {"url": ...}}`. -/
inductive OAItem where
  | textItem (s : List Char)
  | imageUrl (url : List Char)
deriving DecidableEq, Repr

/-- An OpenAI-style message `content` value: a plain string or a list of
typed items. -/
inductive OAContent where
  | str (s : List Char)
  | items (l : List OAItem)
deriving DecidableEq, Repr

/-- An OpenAI-style message. -/
structure OAMessage where
  role : List Char
  content : OAContent
deriving DecidableEq, Repr

/-- `"data:"`. -/
def dataUriHead : List Char := "data:".toList

/-- `";base64,"`. -/
def base64Marker : List Char := ";base64,".toList

/-- `"image/jpeg"` — the constant mime type hard-coded on the response path. -/
def jpegMime : List Char := "image/jpeg".toList

/-- The data-URI built on the request path:
`f"data:{mimeType};base64,{data}"`. -/
def mkDataUri (mimeType data : List Char) : List Char :=
  dataUriHead ++ mimeType ++ base64Marker ++ data

/-- `convert_google_to_openai_format`, parts → messages: a text part becomes
a user message with string content; an inline-data part becomes a user
message whose content is a one-element `image_url` list carrying the
data-URI. -/
def convert_google_to_openai_format (parts : List GPart) : List OAMessage :=
  parts.map fun p =>
    match p with
    | .text s => ⟨"user".toList, .str s⟩
    | .inlineData mimeType data =>
      ⟨"user".toList, .items [.imageUrl (mkDataUri mimeType data)]⟩

/-- Python `s.split(",")` over character lists (worker with reversed
accumulator). -/
def splitOnCommaAux : List Char → List Char → List (List Char)
  | [], acc => [acc.reverse]
  | c :: cs, acc =>
    if c = ',' then acc.reverse :: splitOnCommaAux cs [] else splitOnCommaAux cs (c :: acc)

/-- Python `s.split(",")` over character lists. -/
def splitOnComma (l : List Char) : List (List Char) := splitOnCommaAux l []

/-- The per-item body of the response-path loop: a `text` item yields a text
part; an `image_url` item whose URL starts with `"data:"` yields an
inline-data part with the second comma-separated field as data and the
hard-coded `"image/jpeg"` mime type; any other item is skipped.  (Where
Python's `split(",")[1]` would raise `IndexError` — a data URI with no
comma — this embedding yields the empty payload; no claim exercises that
point.) -/
def convertResponseItem (item : OAItem) : List GPart :=
  match item with
  | .textItem s => [.text s]
  | .imageUrl url =>
    if dataUriHead.isPrefixOf url then
      [.inlineData jpegMime ((splitOnComma url).getD 1 [])]
    else []

/-- `convert_openai_to_google_format`, restricted to the content of the first
choice's message: a string becomes one text part; a list of items is
translated item-wise. -/
def convert_openai_to_google_format (content : OAContent) : List GPart :=
  match content with
  | .str s => [.text s]
  | .items l => l.flatMap convertResponseItem

/-- The provider echo assumed by the round-trip claim: the provider returns
the request's segments unchanged, as the content list of the message in the
single choice (string contents become `text` items, item lists are kept). -/
def echoContent (msgs : List OAMessage) : OAContent :=
  .items <| msgs.flatMap fun m =>
    match m.content with
    | .str s => [.textItem s]
    | .items l => l

/-- The full round trip of the claim: canonical parts → OpenAI messages →
echoed response content → canonical parts. -/
def roundTrip (parts : List GPart) : List GPart :=
  convert_openai_to_google_format (echoContent (convert_google_to_openai_format parts))

/-! ## Supporting lemmas -/

theorem shouldTryNextKey_eq_true (e : String) : shouldTryNextKey e = true := by
  simp [shouldTryNextKey]

theorem tryGoogleKeys_first_success (errs : List String) (r : String)
    (rest : List (Except String String)) (last : Option String) :
    tryGoogleKeys (errs.map Except.error ++ Except.ok r :: rest) last
      = .ok (r, errs.length + 1) := by
  induction errs generalizing last with
  | nil => simp [tryGoogleKeys]
  | cons e errs ih =>
    have hne : (errs.map Except.error ++ Except.ok r :: rest).isEmpty = false := by
      cases errs <;> simp
    simp [tryGoogleKeys, shouldTryNextKey_eq_true, hne, ih]

theorem tryGoogleKeys_all_fail (errs : List String) (e : String) (last : Option String) :
    tryGoogleKeys ((errs ++ [e]).map Except.error) last
      = .error (some e, errs.length + 1) := by
  induction errs generalizing last with
  | nil => simp [tryGoogleKeys]
  | cons e' errs ih =>
    have hne : ((errs ++ [e]).map (Except.error : String → Except String String)).isEmpty
        = false := by
      cases errs <;> simp
    have ih' := ih (some e')
    simp only [List.map_append, List.map_cons, List.map_nil] at ih'
    simp [tryGoogleKeys, shouldTryNextKey_eq_true, hne, ih']

theorem check_user_credits_snd_none_iff (tier : String) (u : UserData) :
    (check_user_credits tier u).2 = none ↔ 0 < u.credits := by
  simp only [check_user_credits]
  split <;> simp_all

theorem check_user_credits_fst (tier : String) (u : UserData) :
    (check_user_credits tier u).1 = { u with tier := tier } := by
  simp only [check_user_credits]
  split <;> rfl

theorem check_user_credits_status (tier : String) (u : UserData) (e : HttpError)
    (h : (check_user_credits tier u).2 = some e) : e.status = 429 := by
  simp only [check_user_credits] at h
  split at h
  · simp only [Option.some.injEq] at h
    subst h
    rfl
  · simp at h

theorem contains_of_lookup_isSome : ∀ (l : List (String × String)) (m : String),
    (l.lookup m).isSome = true → (l.map Prod.fst).contains m = true
  | [], m, h => by simp [List.lookup] at h
  | (k, v) :: rest, m, h => by
    rw [List.lookup] at h
    by_cases hm : m = k
    · subst hm; simp
    · have hb : (m == k) = false := by simp [hm]
      rw [hb] at h
      have hrec := contains_of_lookup_isSome rest m h
      simp only [List.map_cons, List.contains_cons, hrec, Bool.or_true]

theorem TIER_MODELS_lookup_eq (t : String) (v : List String)
    (h : TIER_MODELS.lookup t = some v) : v = allowedModelNames := by
  simp only [TIER_MODELS, List.lookup] at h
  repeat' split at h
  all_goals simp_all

theorem validate_tier_model_access_ok (t m : String)
    (h : (ALLOWED_MODELS.lookup m).isSome = true) :
    validate_tier_model_access t m = .ok () := by
  have hc : allowedModelNames.contains m = true := contains_of_lookup_isSome _ _ h
  have hm : m ∈ allowedModelNames := by simpa using hc
  simp only [validate_tier_model_access]
  by_cases ht : (TIER_MODELS.lookup t).isSome
  · rcases Option.isSome_iff_exists.mp ht with ⟨v, hv⟩
    have hv' := TIER_MODELS_lookup_eq t v hv
    subst hv'
    simp [ht, hv, hm]
  · have hfree : TIER_MODELS.lookup "free" = some allowedModelNames := by decide
    simp [ht, hfree, hm]

theorem get_tier_credits_nonneg (t : String) : 0 ≤ get_tier_credits t := by
  unfold get_tier_credits
  rcases h : TIER_CREDITS.lookup t with _ | v
  · decide
  · simp only [Option.getD_some]
    simp only [TIER_CREDITS, List.lookup] at h
    repeat' split at h
    all_goals simp_all
    all_goals omega

theorem splitOnCommaAux_no_comma (l : List Char) (acc : List Char) (h : ',' ∉ l) :
    splitOnCommaAux l acc = [acc.reverse ++ l] := by
  induction l generalizing acc with
  | nil => simp [splitOnCommaAux]
  | cons c cs ih =>
    have hc : ¬ c = ',' := fun hcc => h (hcc ▸ List.mem_cons_self c cs)
    have hcs : ',' ∉ cs := fun hm => h (List.mem_cons_of_mem c hm)
    simp [splitOnCommaAux, hc, ih _ hcs]

theorem splitOnCommaAux_append (p rest : List Char) (acc : List Char) (h : ',' ∉ p) :
    splitOnCommaAux (p ++ ',' :: rest) acc = (acc.reverse ++ p) :: splitOnCommaAux rest [] := by
  induction p generalizing acc with
  | nil => simp [splitOnCommaAux]
  | cons c cs ih =>
    have hc : ¬ c = ',' := fun hcc => h (hcc ▸ List.mem_cons_self c cs)
    have hcs : ',' ∉ cs := fun hm => h (List.mem_cons_of_mem c hm)
    simp [splitOnCommaAux, hc, ih _ hcs]

theorem splitOnComma_dataUri (mimeType data : List Char)
    (hm : ',' ∉ mimeType) (hd : ',' ∉ data) :
    splitOnComma (mkDataUri mimeType data)
      = [dataUriHead ++ mimeType ++ ";base64".toList, data] := by
  have huri : mkDataUri mimeType data
      = (dataUriHead ++ mimeType ++ ";base64".toList) ++ ',' :: data := by
    simp [mkDataUri, dataUriHead, base64Marker]
  have hp : ',' ∉ dataUriHead ++ mimeType ++ ";base64".toList := by
    intro hmem
    rcases List.mem_append.mp hmem with hmem' | hmem'
    · rcases List.mem_append.mp hmem' with hmem'' | hmem''
      · revert hmem''; decide
      · exact hm hmem''
    · revert hmem'; decide
  rw [splitOnComma, huri, splitOnCommaAux_append _ _ _ hp,
    splitOnCommaAux_no_comma _ _ hd]
  simp

theorem isPrefixOf_append_self (l r : List Char) : l.isPrefixOf (l ++ r) = true :=
  List.isPrefixOf_iff_prefix.mpr ⟨r, rfl⟩

/-! ## Claim C1 -/

/-- C1 counterexample: with three credentials all failing and no secondary
mapping (and likewise with a mapping whose secondary call also fails), the
surfaced cause is the error of attempt #3, not the error of attempt #1 — the
claim that the first primary error is carried is false on the code. -/
theorem C1_counterexample :
    (call_enhanced_api_with_fallback
      [.error "error-1", .error "error-2", .error "error-3"] false (.error "secondary")).out
      = .error "error-3" ∧
    (call_enhanced_api_with_fallback
      [.error "error-1", .error "error-2", .error "error-3"] true (.error "secondary")).out
      = .error "error-3" ∧
    ("error-3" : String) ≠ "error-1" := by
  refine ⟨by decide, by decide, by decide⟩

/-- C1 (amended): when every primary-provider credential fails and the
secondary provider is unavailable (no mapping) or also fails, the operation
fails carrying the LAST primary-provider error encountered — not the first,
and not the secondary provider's error. -/
theorem C1_last_primary_error_surfaced (errList : List String) (e : String)
    (hasMapping : Bool) (openrouterErr : String) :
    (call_enhanced_api_with_fallback ((errList ++ [e]).map Except.error)
      hasMapping (.error openrouterErr)).out = .error e := by
  unfold call_enhanced_api_with_fallback
  rw [tryGoogleKeys_all_fail]
  cases hasMapping <;> simp

/-! ## Claim C5 -/

/-- C5: the fallback orchestration is strictly ordered.  (a) The first
successful attempt (index `errs.length`, 0-based, after `errs.length`
failures) returns immediately with provenance `google-key-<attempt-index>`,
having made exactly that many calls, for any later outcomes, any mapping
state and any OpenRouter outcome; (b) `should_try_next_key` holds for every
failure message, so every failure class advances to the next credential;
(c) without a secondary-provider mapping the result never depends on the
OpenRouter outcome (OpenRouter is skipped entirely); (d) when all
credentials fail and the model has a mapping, the successful OpenRouter
call returns success with provenance `openrouter` after exactly one
secondary attempt; (e) when all credentials fail, OpenRouter is attempted
exactly once with a mapping (`len+1` calls) and never without one
(`len` calls). -/
theorem C5_ordered_fallback :
    (∀ (errs : List String) (r : String) (rest : List (Except String String))
        (hasMapping : Bool) (oro : Except String String),
      call_enhanced_api_with_fallback (errs.map Except.error ++ .ok r :: rest) hasMapping oro
        = ⟨.ok (r, "google-key-" ++ toString (errs.length + 1)), errs.length + 1⟩) ∧
    (∀ e, shouldTryNextKey e = true) ∧
    (∀ (keyOutcomes : List (Except String String)) (o o' : Except String String),
      call_enhanced_api_with_fallback keyOutcomes false o
        = call_enhanced_api_with_fallback keyOutcomes false o') ∧
    (∀ (errs : List String) (e : String) (r : String),
      call_enhanced_api_with_fallback ((errs ++ [e]).map Except.error) true (.ok r)
        = ⟨.ok (r, "openrouter"), errs.length + 2⟩) ∧
    (∀ (errs : List String) (e : String) (oro : Except String String),
      (call_enhanced_api_with_fallback ((errs ++ [e]).map Except.error) true oro).attempts
          = errs.length + 2 ∧
      (call_enhanced_api_with_fallback ((errs ++ [e]).map Except.error) false oro).attempts
          = errs.length + 1) := by
  refine ⟨?_, shouldTryNextKey_eq_true, ?_, ?_, ?_⟩
  · intro errs r rest hasMapping oro
    unfold call_enhanced_api_with_fallback
    rw [tryGoogleKeys_first_success]
  · intro keyOutcomes o o'
    unfold call_enhanced_api_with_fallback
    rcases tryGoogleKeys keyOutcomes none with ⟨last, n⟩ | ⟨r, n⟩ <;> simp
  · intro errs e r
    unfold call_enhanced_api_with_fallback
    rw [tryGoogleKeys_all_fail]
    simp
  · intro errs e oro
    unfold call_enhanced_api_with_fallback
    rw [tryGoogleKeys_all_fail]
    rcases oro with oe | r <;> simp

/-! ## Claim C2 -/

/-- C2 counterexample: the round trip on one text segment and one inline
PNG segment does not return the original segments — the mime type comes
back as the hard-coded `"image/jpeg"`, not `"image/png"`. -/
theorem C2_counterexample :
    roundTrip [GPart.text "hi".toList, GPart.inlineData "image/png".toList "AAAA".toList]
      = [GPart.text "hi".toList, GPart.inlineData "image/jpeg".toList "AAAA".toList] ∧
    roundTrip [GPart.text "hi".toList, GPart.inlineData "image/png".toList "AAAA".toList]
      ≠ [GPart.text "hi".toList, GPart.inlineData "image/png".toList "AAAA".toList] := by
  refine ⟨by decide, by decide⟩

/-- C2 (amended): for a canonical request of one text segment and one inline
image segment (with comma-free mime type and base64 payload, as any real
mime type and base64 payload are), the round trip through the
OpenAI/OpenRouter format preserves the text exactly and the base64 payload
byte-identically, but replaces the mime type with the constant
`"image/jpeg"` — so the full identity holds only for jpeg inputs. -/
theorem C2_roundtrip_text_and_payload (t mimeType data : List Char)
    (hm : ',' ∉ mimeType) (hd : ',' ∉ data) :
    roundTrip [GPart.text t, GPart.inlineData mimeType data]
      = [GPart.text t, GPart.inlineData jpegMime data] := by
  have huri : dataUriHead.isPrefixOf (mkDataUri mimeType data) = true := by
    unfold mkDataUri
    rw [show dataUriHead ++ mimeType ++ base64Marker ++ data
        = dataUriHead ++ (mimeType ++ (base64Marker ++ data)) by simp]
    exact isPrefixOf_append_self _ _
  have hsplit := splitOnComma_dataUri mimeType data hm hd
  unfold roundTrip convert_google_to_openai_format echoContent
    convert_openai_to_google_format
  simp [convertResponseItem, huri, hsplit]

/-- C2 witness for the amended round-trip theorem, at the PNG input of the
counterexample. -/
theorem C2_roundtrip_witness :
    (',' ∉ "image/png".toList) ∧ (',' ∉ "AAAA".toList) ∧
    roundTrip [GPart.text "hi".toList, GPart.inlineData "image/png".toList "AAAA".toList]
      = [GPart.text "hi".toList, GPart.inlineData jpegMime "AAAA".toList] :=
  ⟨by decide, by decide,
    C2_roundtrip_text_and_payload "hi".toList "image/png".toList "AAAA".toList
      (by decide) (by decide)⟩

/-- Dichotomy for `/generate-text`: either the request fails and the
account's credits and cumulative cost are untouched, or it succeeds, one
credit is debited, the `"text"` unit cost is added, and the entitlement
check had passed. -/
theorem generate_text_cases (env : String → Option String) (up : Upstream)
    (req : TextRequest) (u : UserData) :
    (∃ e, (generate_text env up req u).response = .error e ∧
       (generate_text env up req u).ledger.credits = u.credits ∧
       (generate_text env up req u).ledger.totalCost = u.totalCost) ∨
    (∃ r, (generate_text env up req u).response = .ok r ∧
       (generate_text env up req u).ledger.credits = u.credits - 1 ∧
       (generate_text env up req u).ledger.totalCost = u.totalCost + generationCost "text" ∧
       0 < u.credits) := by
  unfold generate_text
  rcases hv : validate_model req.model with e | ep
  · simp
  rcases ht : validate_tier_model_access req.user_tier req.model with e | uu
  · simp
  rcases hchk : (check_user_credits req.user_tier u).2 with _ | e
  case ok.ok.some => simp [hchk, check_user_credits_fst]
  have hpos : 0 < u.credits := (check_user_credits_snd_none_iff _ _).mp hchk
  simp only [hchk]
  rcases hkeys : get_api_keys_for_model env req.model req.revo_version with e | ks
  · simp [check_user_credits_fst]
  by_cases hcl : strStartsWith req.model "claude" = true
  · simp only [hcl, if_true]
    rcases hc : up.claudeCall (ks.headD "") with e | d
    · simp [check_user_credits_fst]
    · right
      refine ⟨_, rfl, ?_, ?_, hpos⟩ <;>
        simp [deduct_user_credit, check_user_credits_fst]
  · simp only [hcl, if_false]
    rcases hfb : (call_enhanced_api_with_fallback
        (ks.map up.googleCall)
        (OPENROUTER_MODEL_MAPPING.lookup req.model).isSome up.openrouterCall).out
      with e | rp
    · simp [hfb, check_user_credits_fst]
    · rcases rp with ⟨d, prov⟩
      simp only [hfb]
      right
      refine ⟨_, rfl, ?_, ?_, hpos⟩ <;>
        simp [deduct_user_credit, check_user_credits_fst]

/-- Dichotomy for `/generate-image`: failure leaves credits and cost
untouched; success debits one credit and the `"image"` unit cost, with the
entitlement check passed. -/
theorem generate_image_cases (env : String → Option String) (up : Upstream)
    (req : ImageRequest) (u : UserData) :
    (∃ e, (generate_image env up req u).response = .error e ∧
       (generate_image env up req u).ledger.credits = u.credits ∧
       (generate_image env up req u).ledger.totalCost = u.totalCost) ∨
    (∃ r, (generate_image env up req u).response = .ok r ∧
       (generate_image env up req u).ledger.credits = u.credits - 1 ∧
       (generate_image env up req u).ledger.totalCost = u.totalCost + generationCost "image" ∧
       0 < u.credits) := by
  unfold generate_image
  rcases hv : validate_model req.model with e | ep
  · simp
  rcases ht : validate_tier_model_access req.user_tier req.model with e | uu
  · simp
  rcases hchk : (check_user_credits req.user_tier u).2 with _ | e
  case ok.ok.some => simp [hchk, check_user_credits_fst]
  have hpos : 0 < u.credits := (check_user_credits_snd_none_iff _ _).mp hchk
  simp only [hchk]
  rcases hkeys : get_api_keys_for_model env req.model req.revo_version with e | ks
  · simp [check_user_credits_fst]
  rcases hfb : (call_enhanced_api_with_fallback
      (ks.map up.googleCall)
      (OPENROUTER_MODEL_MAPPING.lookup req.model).isSome up.openrouterCall).out
    with e | rp
  · simp [hfb, check_user_credits_fst]
  · rcases rp with ⟨d, prov⟩
    simp only [hfb]
    right
    refine ⟨_, rfl, ?_, ?_, hpos⟩ <;>
      simp [deduct_user_credit, check_user_credits_fst]

/-- Dichotomy for `/analyze-website`: failure leaves credits and cost
untouched; success debits exactly two credits and twice the
`"website_analysis"` per-call cost, with the entitlement check passed. -/
theorem analyze_website_cases (contentLen : Nat) (outcome : Except String String)
    (tier : String) (u : UserData) :
    (∃ e, (analyze_website_endpoint contentLen outcome tier u).response = .error e ∧
       (analyze_website_endpoint contentLen outcome tier u).ledger.credits = u.credits ∧
       (analyze_website_endpoint contentLen outcome tier u).ledger.totalCost = u.totalCost) ∨
    (∃ r, (analyze_website_endpoint contentLen outcome tier u).response = .ok r ∧
       (analyze_website_endpoint contentLen outcome tier u).ledger.credits = u.credits - 2 ∧
       (analyze_website_endpoint contentLen outcome tier u).ledger.totalCost
          = u.totalCost + 2 * generationCost "website_analysis" ∧
       0 < u.credits) := by
  unfold analyze_website_endpoint
  rcases hchk : (check_user_credits tier u).2 with _ | e
  case some => simp [hchk, check_user_credits_fst]
  have hpos : 0 < u.credits := (check_user_credits_snd_none_iff _ _).mp hchk
  simp only [hchk]
  by_cases hlen : contentLen < 100
  · simp [hlen, check_user_credits_fst]
  simp only [hlen, if_false]
  rcases outcome with e | d
  · simp [check_user_credits_fst]
  · right
    refine ⟨_, rfl, ?_, ?_, hpos⟩ <;>
      simp [deduct_user_credit, check_user_credits_fst] <;> omega

/-- Any single gateway operation keeps one account's credits at or above −1:
reductions only happen after `check_user_credits` passed (credits ≥ 1) and
debit at most 2, and the credit-granting operations only add. -/
theorem runOp_credits_lower_bound (u : UserData) (op : GatewayOp)
    (h : -1 ≤ u.credits) : -1 ≤ (runOp u op).credits := by
  cases op with
  | genText env up req =>
    rcases generate_text_cases env up req u with ⟨e, _, hc, _⟩ | ⟨r, _, hc, _, hpos⟩ <;>
      simp only [runOp, hc] <;> omega
  | genImage env up req =>
    rcases generate_image_cases env up req u with ⟨e, _, hc, _⟩ | ⟨r, _, hc, _, hpos⟩ <;>
      simp only [runOp, hc] <;> omega
  | analyzeWebsite n outcome tier =>
    rcases analyze_website_cases n outcome tier u with ⟨e, _, hc, _⟩ | ⟨r, _, hc, _, hpos⟩ <;>
      simp only [runOp, hc] <;> omega
  | purchase tier =>
    simp only [runOp]
    by_cases hp : (TIER_CREDITS.lookup tier).isSome
    · have hok : purchase_credits tier u = .ok (add_credits_to_user tier u) := by
        simp [purchase_credits, hp]
      rw [hok]
      have hnn := get_tier_credits_nonneg tier
      show -1 ≤ u.credits + get_tier_credits tier
      omega
    · have herr : purchase_credits tier u = .error ⟨400, "Invalid tier package: " ++ tier⟩ := by
        simp [purchase_credits, hp]
      rw [herr]
      exact h
  | grant c tier =>
    simp only [runOp]
    by_cases hg : c ≤ 0
    · have herr : add_credits_manual c tier u = .error ⟨400, "Credits must be positive"⟩ := by
        simp [add_credits_manual, hg]
      rw [herr]
      exact h
    · have hok : add_credits_manual c tier u
          = .ok { credits := u.credits + c, tier := tier, totalCost := u.totalCost } := by
        simp [add_credits_manual, hg]
      rw [hok]
      show -1 ≤ u.credits + c
      omega

/-! ## Claim C3 -/

/-- Environment for the C3 run: one Revo-1.5 primary key configured. -/
def c3Env : String → Option String := fun n =>
  if n = "GEMINI_API_KEY_REVO_1_5_PRIMARY" then some "key-1" else none

/-- Upstream oracle for the C3 run: every provider call succeeds. -/
def c3Up : Upstream := ⟨fun _ => .ok "resp", fun _ => .ok "resp", .ok "resp"⟩

/-- A plain `/generate-text` request on `gemini-2.5-flash`, free tier. -/
def c3Req : TextRequest := ⟨"user-1", "free", "gemini-2.5-flash", none⟩

/-- One successful text generation, as a gateway operation. -/
def c3OpText : GatewayOp := .genText c3Env c3Up c3Req

/-- One successful website analysis (content of 200 characters). -/
def c3OpSite : GatewayOp := .analyzeWebsite 200 (.ok "analysis") "free"

/-- The C3 run: 99 successful text generations (draining the default balance
of 100 down to 1) followed by one website analysis, which the entitlement
check admits at 1 credit and which then debits 2. -/
def c3Ops : List GatewayOp := List.replicate 99 c3OpText ++ [c3OpSite]

set_option maxRecDepth 10000 in
/-- C3 counterexample: a sequence of gateway operations, starting from the
default account state, after which `credits_remaining` is negative — the
never-negative invariant is false on the code. -/
theorem C3_counterexample : (runOps defaultUserData c3Ops).credits < 0 := by
  decide

/-- C3 (amended): `credits_remaining` never drops below −1.  Every
sequence of gateway operations on an account whose credits are at least −1
(in particular a fresh account with the default 100) leaves them at least
−1: only the 2-credit website-analysis debit, admitted at a balance of
exactly 1, can take an account negative, and only to −1. -/
theorem C3_credits_never_below_minus_one (ops : List GatewayOp) (u : UserData)
    (h : -1 ≤ u.credits) : -1 ≤ (runOps u ops).credits := by
  induction ops generalizing u with
  | nil => exact h
  | cons op ops ih =>
    exact ih (runOp u op) (runOp_credits_lower_bound u op h)

set_option maxRecDepth 10000 in
/-- C3 witness: the amended bound applied to the C3 run itself, from the
default account state. -/
theorem C3_witness : -1 ≤ (runOps defaultUserData c3Ops).credits :=
  C3_credits_never_below_minus_one c3Ops defaultUserData (by decide)

/-! ## Claim C4 -/

/-- C4: for every successfully completed generation request the ledger is
debited exactly once, whatever the attempt count hidden in the upstream
oracles: `/generate-text` success debits exactly 1 credit and adds the
`"text"` unit cost, `/generate-image` success debits exactly 1 credit and
adds the `"image"` unit cost, and the compound `/analyze-website` success
debits exactly 2 credits and adds twice the `"website_analysis"` per-call
cost. -/
theorem C4_debit_exactly_once :
    (∀ env up req u r, (generate_text env up req u).response = .ok r →
       (generate_text env up req u).ledger.credits = u.credits - 1 ∧
       (generate_text env up req u).ledger.totalCost
          = u.totalCost + generationCost "text") ∧
    (∀ env up req u r, (generate_image env up req u).response = .ok r →
       (generate_image env up req u).ledger.credits = u.credits - 1 ∧
       (generate_image env up req u).ledger.totalCost
          = u.totalCost + generationCost "image") ∧
    (∀ contentLen outcome tier u r,
       (analyze_website_endpoint contentLen outcome tier u).response = .ok r →
       (analyze_website_endpoint contentLen outcome tier u).ledger.credits = u.credits - 2 ∧
       (analyze_website_endpoint contentLen outcome tier u).ledger.totalCost
          = u.totalCost + 2 * generationCost "website_analysis") := by
  refine ⟨?_, ?_, ?_⟩
  · intro env up req u r h
    rcases generate_text_cases env up req u with ⟨e, he, _, _⟩ | ⟨r', _, hc, hcost, _⟩
    · rw [he] at h; cases h
    · exact ⟨hc, hcost⟩
  · intro env up req u r h
    rcases generate_image_cases env up req u with ⟨e, he, _, _⟩ | ⟨r', _, hc, hcost, _⟩
    · rw [he] at h; cases h
    · exact ⟨hc, hcost⟩
  · intro contentLen outcome tier u r h
    rcases analyze_website_cases contentLen outcome tier u with
      ⟨e, he, _, _⟩ | ⟨r', _, hc, hcost, _⟩
    · rw [he] at h; cases h
    · exact ⟨hc, hcost⟩

/-- C4 witness: a concrete successful text generation from the default
account debits exactly one credit and adds the text unit cost. -/
theorem C4_witness :
    (generate_text c3Env c3Up c3Req defaultUserData).ledger.credits
        = defaultUserData.credits - 1 ∧
    (generate_text c3Env c3Up c3Req defaultUserData).ledger.totalCost
        = defaultUserData.totalCost + generationCost "text" :=
  C4_debit_exactly_once.1 c3Env c3Up c3Req defaultUserData
    ⟨"resp", "gemini-2.5-flash", "google-key-1", 99⟩ (by decide)

/-! ## Claim C7 -/

/-- C7: a generation request that terminates in failure never debits the
ledger — on any error response the account's credits and cumulative cost
are exactly what they were before the request, for `/generate-text`,
`/generate-image` and `/analyze-website`. -/
theorem C7_no_debit_on_failure :
    (∀ env up req u e, (generate_text env up req u).response = .error e →
       (generate_text env up req u).ledger.credits = u.credits ∧
       (generate_text env up req u).ledger.totalCost = u.totalCost) ∧
    (∀ env up req u e, (generate_image env up req u).response = .error e →
       (generate_image env up req u).ledger.credits = u.credits ∧
       (generate_image env up req u).ledger.totalCost = u.totalCost) ∧
    (∀ contentLen outcome tier u e,
       (analyze_website_endpoint contentLen outcome tier u).response = .error e →
       (analyze_website_endpoint contentLen outcome tier u).ledger.credits = u.credits ∧
       (analyze_website_endpoint contentLen outcome tier u).ledger.totalCost = u.totalCost) := by
  refine ⟨?_, ?_, ?_⟩
  · intro env up req u e h
    rcases generate_text_cases env up req u with ⟨e', _, hc, hcost⟩ | ⟨r, hr, _, _, _⟩
    · exact ⟨hc, hcost⟩
    · rw [hr] at h; cases h
  · intro env up req u e h
    rcases generate_image_cases env up req u with ⟨e', _, hc, hcost⟩ | ⟨r, hr, _, _, _⟩
    · exact ⟨hc, hcost⟩
    · rw [hr] at h; cases h
  · intro contentLen outcome tier u e h
    rcases analyze_website_cases contentLen outcome tier u with
      ⟨e', _, hc, hcost⟩ | ⟨r, hr, _, _, _⟩
    · exact ⟨hc, hcost⟩
    · rw [hr] at h; cases h

/-- Upstream oracle where every provider call fails. -/
def c7Up : Upstream :=
  ⟨fun _ => .error "500 quota exceeded", fun _ => .error "overloaded", .error "503"⟩

/-- C7 witness: a concrete text generation whose every upstream attempt
fails leaves the default account's credits and cost untouched. -/
theorem C7_witness :
    (generate_text c3Env c7Up c3Req defaultUserData).ledger.credits
        = defaultUserData.credits ∧
    (generate_text c3Env c7Up c3Req defaultUserData).ledger.totalCost
        = defaultUserData.totalCost :=
  C7_no_debit_on_failure.1 c3Env c7Up c3Req defaultUserData
    ⟨503, "Text generation failed: 500 quota exceeded"⟩ (by decide)

/-! ## Claim C9 -/

/-- C9: a request naming a model outside the allow-list is rejected with
HTTP 400 with no credential lookup, no upstream call, and an untouched
ledger — for both `/generate-text` and `/generate-image`. -/
theorem C9_unknown_model_rejected :
    (∀ env up req u, ALLOWED_MODELS.lookup req.model = none →
       generate_text env up req u
         = ⟨.error ⟨400, "Model '" ++ req.model ++ "' not allowed."⟩, u, 0, 0⟩) ∧
    (∀ env up req u, ALLOWED_MODELS.lookup req.model = none →
       generate_image env up req u
         = ⟨.error ⟨400, "Model '" ++ req.model ++ "' not allowed."⟩, u, 0, 0⟩) := by
  constructor
  · intro env up req u h
    unfold generate_text
    simp [validate_model, h]
  · intro env up req u h
    unfold generate_image
    simp [validate_model, h]

/-- A request for a model that is not on the allow-list. -/
def c9Req : TextRequest := ⟨"user-1", "free", "unknown-model-xyz", none⟩

/-- C9 witness: the unknown-model request is rejected with HTTP 400, zero
credential lookups and zero upstream calls. -/
theorem C9_witness :
    generate_text c3Env c3Up c9Req defaultUserData
      = ⟨.error ⟨400, "Model '" ++ c9Req.model ++ "' not allowed."⟩,
         defaultUserData, 0, 0⟩ :=
  C9_unknown_model_rejected.1 c3Env c3Up c9Req defaultUserData (by decide)

/-! ## Claim C6 -/

/-- C6: the entitlement check passes iff `credits_remaining > 0`; when it
fails the request is rejected with HTTP 429, with zero credential lookups
and zero upstream calls; and as a side effect it stores the supplied tier
(without touching the credits). -/
theorem C6_entitlement_check :
    (∀ tier u, ((check_user_credits tier u).2 = none ↔ 0 < u.credits) ∧
       (check_user_credits tier u).1.tier = tier ∧
       (check_user_credits tier u).1.credits = u.credits ∧
       (∀ e, (check_user_credits tier u).2 = some e → e.status = 429)) ∧
    (∀ env up req u, (ALLOWED_MODELS.lookup req.model).isSome = true →
       u.credits ≤ 0 →
       (∃ e, (generate_text env up req u).response = .error e ∧ e.status = 429) ∧
       (generate_text env up req u).upstream = 0 ∧
       (generate_text env up req u).lookups = 0) := by
  constructor
  · intro tier u
    refine ⟨check_user_credits_snd_none_iff tier u, ?_, ?_,
      fun e => check_user_credits_status tier u e⟩
    · rw [check_user_credits_fst]
    · rw [check_user_credits_fst]
  · intro env up req u hmodel hle
    rcases Option.isSome_iff_exists.mp hmodel with ⟨ep, hep⟩
    have hval : ∃ s, validate_model req.model = .ok s := by
      unfold validate_model
      rw [hep]
      by_cases hcl : strStartsWith req.model "claude" = true <;> simp [hcl]
    rcases hval with ⟨s, hs⟩
    have htier := validate_tier_model_access_ok req.user_tier req.model hmodel
    have hchk : (check_user_credits req.user_tier u).2
        = some ⟨429, "No credits remaining. You have " ++ toString u.credits ++
            " credits left. Purchase more credits to continue."⟩ := by
      simp [check_user_credits, hle]
    unfold generate_text
    simp only [hs, htier, hchk]
    refine ⟨⟨_, rfl, rfl⟩, ?_, ?_⟩ <;> trivial

/-- An account with tier `free` and zero credits. -/
def c6User : UserData := ⟨0, "free", 0⟩

/-- C6 witness: the check fails exactly at zero credits with status 429 and
no lookup or upstream call, and the concrete zero-credit `/generate-text`
request is rejected the same way. -/
theorem C6_witness :
    ((check_user_credits "free" c6User).2 = none ↔ 0 < c6User.credits) ∧
    ((∃ e, (generate_text c3Env c3Up c3Req c6User).response = .error e ∧ e.status = 429) ∧
      (generate_text c3Env c3Up c3Req c6User).upstream = 0 ∧
      (generate_text c3Env c3Up c3Req c6User).lookups = 0) :=
  ⟨(C6_entitlement_check.1 "free" c6User).1,
   C6_entitlement_check.2 c3Env c3Up c3Req c6User (by decide) (by decide)⟩

/-! ## Claim C10 -/

/-- C10: for a claude-prefixed model on `/generate-text` the whole
multi-credential / multi-provider fallback chain is bypassed: exactly one
upstream call is made, to the Anthropic oracle with the first resolved
credential; its success returns immediately and its failure fails the whole
request with HTTP 503; an OpenRouter mapping nevertheless exists for both
claude models; and the outcome never depends on the Google or OpenRouter
oracles. -/
theorem C10_claude_single_attempt :
    (∀ (env : String → Option String) (up : Upstream) (req : TextRequest)
        (u : UserData) (ks : List String),
      strStartsWith req.model "claude" = true →
      (ALLOWED_MODELS.lookup req.model).isSome = true →
      0 < u.credits →
      get_api_keys_for_model env req.model req.revo_version = .ok ks →
      ((∀ d, up.claudeCall (ks.headD "") = .ok d →
          generate_text env up req u
            = ⟨.ok ⟨d, req.model, "claude", u.credits - 1⟩,
               deduct_user_credit req.user_tier "text" { u with tier := req.user_tier },
               1, 1⟩) ∧
       (∀ e, up.claudeCall (ks.headD "") = .error e →
          generate_text env up req u
            = ⟨.error ⟨503, "Text generation failed: " ++ e⟩,
               { u with tier := req.user_tier }, 1, 1⟩))) ∧
    (OPENROUTER_MODEL_MAPPING.lookup "claude-sonnet-4.5").isSome = true ∧
    (OPENROUTER_MODEL_MAPPING.lookup "claude-3.5-sonnet").isSome = true ∧
    (∀ (env : String → Option String) (up up' : Upstream) (req : TextRequest)
        (u : UserData),
      strStartsWith req.model "claude" = true →
      up.claudeCall = up'.claudeCall →
      generate_text env up req u = generate_text env up' req u) := by
  refine ⟨?_, by decide, by decide, ?_⟩
  · intro env up req u ks hcl hmodel hpos hkeys
    rcases Option.isSome_iff_exists.mp hmodel with ⟨ep, hep⟩
    have hs : validate_model req.model = .ok "anthropic" := by
      unfold validate_model
      rw [hep]
      simp [hcl]
    have htier := validate_tier_model_access_ok req.user_tier req.model hmodel
    have hchk : (check_user_credits req.user_tier u).2 = none := by
      exact (check_user_credits_snd_none_iff _ _).mpr hpos
    constructor
    · intro d hd
      unfold generate_text
      simp only [hs, htier, hchk, hkeys, hcl, if_true, hd, check_user_credits_fst]
      have : ({ u with tier := req.user_tier } : UserData).credits - 1
          = u.credits - 1 := rfl
      simp [deduct_user_credit]
    · intro e he
      unfold generate_text
      simp only [hs, htier, hchk, hkeys, hcl, if_true, he, check_user_credits_fst]
  · intro env up up' req u hcl hcc
    unfold generate_text
    rcases hv : validate_model req.model with e | ep
    · rfl
    rcases ht : validate_tier_model_access req.user_tier req.model with e | uu
    · rfl
    rcases hchk : (check_user_credits req.user_tier u).2 with _ | e
    case ok.ok.some => simp only [hchk]
    rcases hkeys : get_api_keys_for_model env req.model req.revo_version with e | ks
    · simp only [hchk, hkeys]
    simp only [hchk, hkeys, hcl, if_true, hcc]

/-- Environment for the C10 witness: only the Anthropic key configured. -/
def c10Env : String → Option String := fun n =>
  if n = "ANTHROPIC_API_KEY" then some "anthropic-key" else none

/-- A `/generate-text` request for a claude model. -/
def c10Req : TextRequest := ⟨"user-1", "free", "claude-sonnet-4.5", none⟩

/-- C10 witness: the concrete claude request resolves the Anthropic key,
makes the single Anthropic call, and returns its payload with provenance
`claude`. -/
theorem C10_witness :
    generate_text c10Env c3Up c10Req defaultUserData
      = ⟨.ok ⟨"resp", c10Req.model, "claude", defaultUserData.credits - 1⟩,
         deduct_user_credit c10Req.user_tier "text"
           { defaultUserData with tier := c10Req.user_tier }, 1, 1⟩ :=
  (C10_claude_single_attempt.1 c10Env c3Up c10Req defaultUserData ["anthropic-key"]
    (by decide) (by decide) (by decide) (by decide)).1 "resp" (by decide)

/-! ## Claim C8 -/

theorem isEmpty_eq_false_of_ne_nil {α : Type} {l : List α} (h : l ≠ []) :
    l.isEmpty = false := by
  cases l with
  | nil => exact absurd rfl h
  | cons a t => rfl

/-- Every slot of the credential chain for `(model, revoVersion)` is
unconfigured: the version/default env-name slots, the legacy single slot
(consulted only when a version was given), and the two general slots. -/
def credentialChainEmpty (env : String → Option String) (model : String)
    (revoVersion : Option String) : Prop :=
  (revo_key_env_names model revoVersion).filterMap env = [] ∧
  (∀ v, revoVersion = some v → env (legacy_key_name v) = none) ∧
  env "GEMINI_API_KEY" = none ∧ env "GOOGLE_API_KEY" = none

/-- C8: credential resolution walks the fixed priority chain, skipping
missing slots without error: when the version/default slots yield any keys
they are returned as-is; a resolved key list is never empty; and the
HTTP 500 `NoCredentialsError` occurs exactly when the entire chain yields
zero credentials. -/
theorem C8_credential_resolution (env : String → Option String) (model : String)
    (revoVersion : Option String) :
    ((∃ d, get_api_keys_for_model env model revoVersion = .error ⟨500, d⟩) ↔
       credentialChainEmpty env model revoVersion) ∧
    (∀ ks, get_api_keys_for_model env model revoVersion = .ok ks → ks ≠ []) ∧
    ((revo_key_env_names model revoVersion).filterMap env ≠ [] →
       get_api_keys_for_model env model revoVersion
         = .ok ((revo_key_env_names model revoVersion).filterMap env)) := by
  by_cases h1 : (revo_key_env_names model revoVersion).filterMap env = []
  · rcases revoVersion with _ | v
    · rcases hg : env "GEMINI_API_KEY" with _ | k
      · rcases hgo : env "GOOGLE_API_KEY" with _ | k
        · have hres : get_api_keys_for_model env model none
              = .error ⟨500, "No API keys configured for model " ++ model⟩ := by
            simp [get_api_keys_for_model, h1, hg, hgo]
          refine ⟨⟨fun _ => ⟨h1, ⟨(fun v hv => nomatch hv), hg, hgo⟩⟩,
            fun _ => ⟨_, hres⟩⟩, ?_, fun hne => absurd h1 hne⟩
          intro ks hks
          rw [hres] at hks
          cases hks
        · have hres : get_api_keys_for_model env model none = .ok [k] := by
            simp [get_api_keys_for_model, h1, hg, hgo]
          refine ⟨⟨?_, ?_⟩, ?_, fun hne => absurd h1 hne⟩
          · rintro ⟨d, hd⟩
            rw [hres] at hd
            cases hd
          · rintro ⟨_, _, _, hgo'⟩
            rw [hgo] at hgo'
            cases hgo'
          · intro ks hks
            rw [hres] at hks
            injection hks with h'
            subst h'
            simp
      · have hres : get_api_keys_for_model env model none = .ok [k] := by
          simp [get_api_keys_for_model, h1, hg]
        refine ⟨⟨?_, ?_⟩, ?_, fun hne => absurd h1 hne⟩
        · rintro ⟨d, hd⟩
          rw [hres] at hd
          cases hd
        · rintro ⟨_, _, hg', _⟩
          rw [hg] at hg'
          cases hg'
        · intro ks hks
          rw [hres] at hks
          injection hks with h'
          subst h'
          simp
    · rcases hl : env (legacy_key_name v) with _ | k
      · rcases hg : env "GEMINI_API_KEY" with _ | k
        · rcases hgo : env "GOOGLE_API_KEY" with _ | k
          · have hres : get_api_keys_for_model env model (some v)
                = .error ⟨500, "No API keys configured for model " ++ model⟩ := by
              simp [get_api_keys_for_model, h1, hl, hg, hgo]
            refine ⟨⟨fun _ => ⟨h1, ?_, hg, hgo⟩, fun _ => ⟨_, hres⟩⟩,
              ?_, fun hne => absurd h1 hne⟩
            · intro v' hv'
              injection hv' with h'
              subst h'
              exact hl
            · intro ks hks
              rw [hres] at hks
              cases hks
          · have hres : get_api_keys_for_model env model (some v) = .ok [k] := by
              simp [get_api_keys_for_model, h1, hl, hg, hgo]
            refine ⟨⟨?_, ?_⟩, ?_, fun hne => absurd h1 hne⟩
            · rintro ⟨d, hd⟩
              rw [hres] at hd
              cases hd
            · rintro ⟨_, _, _, hgo'⟩
              rw [hgo] at hgo'
              cases hgo'
            · intro ks hks
              rw [hres] at hks
              injection hks with h'
              subst h'
              simp
        · have hres : get_api_keys_for_model env model (some v) = .ok [k] := by
            simp [get_api_keys_for_model, h1, hl, hg]
          refine ⟨⟨?_, ?_⟩, ?_, fun hne => absurd h1 hne⟩
          · rintro ⟨d, hd⟩
            rw [hres] at hd
            cases hd
          · rintro ⟨_, _, hg', _⟩
            rw [hg] at hg'
            cases hg'
          · intro ks hks
            rw [hres] at hks
            injection hks with h'
            subst h'
            simp
      · have hres : get_api_keys_for_model env model (some v) = .ok [k] := by
          simp [get_api_keys_for_model, h1, hl]
        refine ⟨⟨?_, ?_⟩, ?_, fun hne => absurd h1 hne⟩
        · rintro ⟨d, hd⟩
          rw [hres] at hd
          cases hd
        · rintro ⟨_, hleg, _, _⟩
          have := hleg v rfl
          rw [hl] at this
          cases this
        · intro ks hks
          rw [hres] at hks
          injection hks with h'
          subst h'
          simp
  · have h1' : ((revo_key_env_names model revoVersion).filterMap env).isEmpty = false :=
      isEmpty_eq_false_of_ne_nil h1
    have hres : get_api_keys_for_model env model revoVersion
        = .ok ((revo_key_env_names model revoVersion).filterMap env) := by
      simp [get_api_keys_for_model, h1']
    refine ⟨⟨?_, ?_⟩, ?_, fun _ => hres⟩
    · rintro ⟨d, hd⟩
      rw [hres] at hd
      cases hd
    · rintro ⟨h1'', _, _, _⟩
      exact absurd h1'' h1
    · intro ks hks
      rw [hres] at hks
      injection hks with h'
      subst h'
      exact h1

/-- C8 witness: with an entirely empty environment the resolution for
`gemini-2.5-flash` fails with the HTTP 500 no-credentials error, via the
iff applied at a concrete chain-empty environment. -/
theorem C8_witness :
    ∃ d, get_api_keys_for_model (fun _ => none) "gemini-2.5-flash" none
      = .error ⟨500, d⟩ :=
  (C8_credential_resolution (fun _ => none) "gemini-2.5-flash" none).1.mpr
    ⟨by decide, ⟨(fun v hv => nomatch hv), rfl, rfl⟩⟩
